import Mathlib

/-!
Shallow embedding of the container-resolution ("space") logic, the upload
step, the environment-variable configuration step, and the pipeline ordering
of the three uploader scripts:

  * `src/cdf_file_uploader_byJules_v1.py` (the "Jules" script),
  * `src/cdf_uploader.py`,
  * `src/upload_to_cdf_byGC_v1.py` (the "GC" script).

The remote ContainerService is modelled by the possible outcomes of its two
calls (`data_modeling.spaces.retrieve` and `data_modeling.spaces.apply` /
`spaces.create`); each script function becomes a Lean function from those
outcomes to the value the Python function returns, together with the list of
create calls it issued.  A deterministic state-based service (a list of
existing space ids) instantiates the outcomes where a claim speaks about
which containers exist.
-/

namespace CdfUpload

/-- Outcome of a single `spaces.retrieve(id)` call as the Python code can
observe it: a truthy space object, a falsy (`None`) return,
a raised `CogniteNotFoundError`, or a raised `CogniteAPIError`. -/
inductive RetrieveOutcome
  | found
  | noneResult
  | notFoundError
  | apiError
deriving DecidableEq, Repr

/-- Outcome of a single `spaces.apply` / `spaces.create` call: success with
the space id reported by the service, a raised `CogniteDuplicatedError`,
a raised `CogniteAPIError`, or any other raised exception. -/
inductive CreateOutcome
  | created (returnedId : String)
  | duplicatedError
  | apiError
  | otherError
deriving DecidableEq, Repr

/-- How `get_or_create_space` in the Jules script can end: with a returned
space id, with the `CogniteAPIError` it re-raises after a failed fallback
creation, or with an exception it does not catch at all. -/
inductive ResolveResult
  | ok (id : String)
  | fatalApiError
  | uncaughtError
deriving DecidableEq, Repr

/-- `true` exactly on the non-`ok` constructors: the run ended without a
space id. -/
def ResolveResult.isFailure : ResolveResult → Bool
  | .ok _ => false
  | .fatalApiError => true
  | .uncaughtError => true

/-- The fixed fallback space id hard-coded in all three scripts. -/
def demoSpaceId : String := "demo_space"

/-- Result of a resolution run: the value the function produced and the ids
passed to the create (`spaces.apply`) call, in order of issue. -/
structure SpaceResolution where
  result : ResolveResult
  createCalls : List String
deriving DecidableEq, Repr

/-- `get_or_create_space(client, target_space_external_id)` from
`src/cdf_file_uploader_byJules_v1.py` (lines 106-144).  A truthy retrieve
returns the target at once; a falsy retrieve, a `CogniteNotFoundError`, or a
`CogniteAPIError` all fall through to one `spaces.apply` for `demo_space`.
On `CogniteDuplicatedError` the function returns `demo_space`; on
`CogniteAPIError` it re-raises; other exceptions propagate uncaught. -/
def get_or_create_space (target : String) (retrieveTarget : RetrieveOutcome)
    (createFallback : CreateOutcome) : SpaceResolution :=
  match retrieveTarget with
  | .found => { result := .ok target, createCalls := [] }
  | _ =>
    match createFallback with
    | .created returnedId => { result := .ok returnedId, createCalls := [demoSpaceId] }
    | .duplicatedError => { result := .ok demoSpaceId, createCalls := [demoSpaceId] }
    | .apiError => { result := .fatalApiError, createCalls := [demoSpaceId] }
    | .otherError => { result := .uncaughtError, createCalls := [demoSpaceId] }

/-- Result of a run of `ensure_space_exists`: the `str | None` value the
function returns and the ids passed to the create call. -/
structure EnsureResolution where
  result : Option String
  createCalls : List String
deriving DecidableEq, Repr

/-- `ensure_space_exists(client, target_space_external_id)` from
`src/cdf_uploader.py` (lines 95-171; the second definition, which shadows
the stub above it).  Target retrieval: truthy returns the target, any of the
other three outcomes falls to the fallback block.  Fallback retrieval:
truthy returns `demo_space`; `CogniteAPIError` returns `None` at once; a
falsy return or `CogniteNotFoundError` proceeds to creation.  Creation:
success returns the id reported by the service; `CogniteAPIError` and every
other exception (`except Exception`), which includes a
`CogniteDuplicatedError`, are caught and the function returns `None`. -/
def ensure_space_exists (target : String)
    (retrieveTarget retrieveFallback : RetrieveOutcome)
    (createFallback : CreateOutcome) : EnsureResolution :=
  match retrieveTarget with
  | .found => { result := some target, createCalls := [] }
  | _ =>
    match retrieveFallback with
    | .found => { result := some demoSpaceId, createCalls := [] }
    | .apiError => { result := none, createCalls := [] }
    | _ =>
      match createFallback with
      | .created returnedId => { result := some returnedId, createCalls := [demoSpaceId] }
      | .duplicatedError => { result := none, createCalls := [demoSpaceId] }
      | .apiError => { result := none, createCalls := [demoSpaceId] }
      | .otherError => { result := none, createCalls := [demoSpaceId] }

/-- How the space-resolution block of `main` in
`src/upload_to_cdf_byGC_v1.py` can end: with a chosen space id, with the
`print` + `sys.exit(1)` of its `except CogniteAPIError` clause, or with an
exception that no clause of the block catches. -/
inductive GcSpaceStep
  | useSpace (id : String)
  | exitError
  | uncaughtError
deriving DecidableEq, Repr

/-- Result of the GC space block: its ending and the create calls issued. -/
structure GcResolution where
  step : GcSpaceStep
  createCalls : List String
deriving DecidableEq, Repr

/-- The space-resolution block of `main` in `src/upload_to_cdf_byGC_v1.py`
(lines 65-77).  A truthy retrieve keeps the target; a falsy retrieve leads
to `spaces.create({"external_id": "demo_space"})` and the id `demo_space`.
The block catches only `CogniteAPIError` (printing the error and calling
`sys.exit(1)`): a `CogniteNotFoundError` from retrieve, and a
`CogniteDuplicatedError` or other exception from create, propagate uncaught
(in the vendor SDK neither is a subclass of `CogniteAPIError`). -/
def gc_resolve_space (target : String) (retrieveTarget : RetrieveOutcome)
    (createFallback : CreateOutcome) : GcResolution :=
  match retrieveTarget with
  | .found => { step := .useSpace target, createCalls := [] }
  | .noneResult =>
    match createFallback with
    | .created _ => { step := .useSpace demoSpaceId, createCalls := [demoSpaceId] }
    | .duplicatedError => { step := .uncaughtError, createCalls := [demoSpaceId] }
    | .apiError => { step := .exitError, createCalls := [demoSpaceId] }
    | .otherError => { step := .uncaughtError, createCalls := [demoSpaceId] }
  | .notFoundError => { step := .uncaughtError, createCalls := [] }
  | .apiError => { step := .exitError, createCalls := [] }

/-- Deterministic service model: `retrieve(id)` against a state listing the
space ids that exist finds the id exactly when it is in the state and
raises `CogniteNotFoundError` otherwise. -/
def retrieveFromState (spaces : List String) (id : String) : RetrieveOutcome :=
  if id ∈ spaces then .found else .notFoundError

/-- Deterministic service model: `create(id)` against a state succeeds and
adds the id when it is absent, and raises `CogniteDuplicatedError` when the
id already exists. -/
def createInState (spaces : List String) (id : String) :
    CreateOutcome × List String :=
  if id ∈ spaces then (.duplicatedError, spaces) else (.created id, id :: spaces)

/-- `get_or_create_space` run against the deterministic service state; the
create outcome argument is only consulted when the target retrieve does not
find the target, so an arbitrary placeholder is passed in the found branch. -/
def get_or_create_space_st (target : String) (spaces : List String) :
    SpaceResolution × List String :=
  match retrieveFromState spaces target with
  | .found => (get_or_create_space target .found .otherError, spaces)
  | rt =>
    let c := createInState spaces demoSpaceId
    (get_or_create_space target rt c.1, c.2)

/-- `ensure_space_exists` run against the deterministic service state; as
above, outcome arguments the run cannot reach are placeholders. -/
def ensure_space_exists_st (target : String) (spaces : List String) :
    EnsureResolution × List String :=
  match retrieveFromState spaces target with
  | .found => (ensure_space_exists target .found .notFoundError .otherError, spaces)
  | rt =>
    match retrieveFromState spaces demoSpaceId with
    | .found => (ensure_space_exists target rt .found .otherError, spaces)
    | rf =>
      let c := createInState spaces demoSpaceId
      (ensure_space_exists target rt rf c.1, c.2)

/-- Claim C1: a desired container the service successfully retrieves is
returned unchanged by `get_or_create_space` and by `ensure_space_exists`,
and neither issues a create call. -/
theorem c1_found_target_returned_no_create :
    ∀ (target : String) (cfJ : CreateOutcome) (rf : RetrieveOutcome)
      (cfE : CreateOutcome),
      get_or_create_space target .found cfJ =
        { result := .ok target, createCalls := [] } ∧
      ensure_space_exists target .found rf cfE =
        { result := some target, createCalls := [] } := by
  intro target cfJ rf cfE
  exact ⟨rfl, rfl⟩

/-- Claim C2 as stated: whenever the desired container does not exist and
the fallback exists, both resolution functions return the fallback id and
issue no create call. -/
def c2_as_stated : Prop :=
  ∀ (target : String) (spaces : List String),
    target ∉ spaces → demoSpaceId ∈ spaces →
    (ensure_space_exists_st target spaces).1.result = some demoSpaceId ∧
    (ensure_space_exists_st target spaces).1.createCalls = [] ∧
    (get_or_create_space_st target spaces).1.result = .ok demoSpaceId ∧
    (get_or_create_space_st target spaces).1.createCalls = []

/-- Claim C2 is false as stated: with the target absent and only
`demo_space` existing, `get_or_create_space` does issue a create call (it
never retrieves the fallback; the call fails as a duplicate and is treated
as success). -/
theorem c2_counterexample : ¬ c2_as_stated := by
  intro h
  have hc := h "my_data_model_space" [demoSpaceId] (by decide) (by decide)
  exact absurd hc.2.2.2 (by decide)

/-- Claim C2 amended: with the target absent and the fallback existing, both
functions return the fallback id and leave the service state unchanged;
`ensure_space_exists` issues no create call, while `get_or_create_space`
issues exactly one create call, for the fallback id, whose duplicate failure
it treats as success. -/
theorem c2_fallback_exists_resolution :
    ∀ (target : String) (spaces : List String),
      target ∉ spaces → demoSpaceId ∈ spaces →
      (ensure_space_exists_st target spaces).1 =
        { result := some demoSpaceId, createCalls := [] } ∧
      (ensure_space_exists_st target spaces).2 = spaces ∧
      (get_or_create_space_st target spaces).1 =
        { result := .ok demoSpaceId, createCalls := [demoSpaceId] } ∧
      (get_or_create_space_st target spaces).2 = spaces := by
  intro target spaces htarget hdemo
  simp [ensure_space_exists_st, get_or_create_space_st, retrieveFromState,
    createInState, htarget, hdemo, ensure_space_exists, get_or_create_space]

/-- The amended claim C2 holds at a concrete input: target
`my_data_model_space` absent, state `[demo_space]`. -/
theorem c2_witness :
    (ensure_space_exists_st "my_data_model_space" [demoSpaceId]).1 =
      { result := some demoSpaceId, createCalls := [] } ∧
    (ensure_space_exists_st "my_data_model_space" [demoSpaceId]).2 = [demoSpaceId] ∧
    (get_or_create_space_st "my_data_model_space" [demoSpaceId]).1 =
      { result := .ok demoSpaceId, createCalls := [demoSpaceId] } ∧
    (get_or_create_space_st "my_data_model_space" [demoSpaceId]).2 = [demoSpaceId] :=
  c2_fallback_exists_resolution "my_data_model_space" [demoSpaceId]
    (by decide) (by decide)

/-- Claim C3 as stated: whenever fallback creation fails with a duplicate
error, resolution treats it as success and returns the fallback id — for
`get_or_create_space` and for `ensure_space_exists` (on the paths where the
latter reaches its create call). -/
def c3_as_stated : Prop :=
  (∀ (target : String) (rt : RetrieveOutcome), rt ≠ .found →
    (get_or_create_space target rt .duplicatedError).result = .ok demoSpaceId) ∧
  (∀ (target : String) (rt rf : RetrieveOutcome), rt ≠ .found →
    (rf = .noneResult ∨ rf = .notFoundError) →
    ∃ id, (ensure_space_exists target rt rf .duplicatedError).result = some id)

/-- Claim C3 is false as stated: when `ensure_space_exists` reaches its
create call and the call fails with a duplicate error, the error is caught
by the generic handler and the function returns `None` — a failure, not the
fallback id. -/
theorem c3_counterexample : ¬ c3_as_stated := by
  intro h
  obtain ⟨id, hid⟩ :=
    h.2 "sdk_doc_integration_space" .notFoundError .notFoundError
      (by decide) (Or.inr rfl)
  exact absurd hid (by simp [ensure_space_exists])

/-- Claim C3 amended: on a duplicate failure of fallback creation,
`get_or_create_space` treats it as success and returns `demo_space`, while
`ensure_space_exists` catches it in its generic exception handler and
returns `None` (resolution fails). -/
theorem c3_duplicate_create_outcomes :
    ∀ (target : String) (rt rf : RetrieveOutcome), rt ≠ .found →
      (rf = .noneResult ∨ rf = .notFoundError) →
      (get_or_create_space target rt .duplicatedError).result = .ok demoSpaceId ∧
      (ensure_space_exists target rt rf .duplicatedError).result = none := by
  intro target rt rf hrt hrf
  constructor
  · cases rt with
    | found => exact absurd rfl hrt
    | noneResult => rfl
    | notFoundError => rfl
    | apiError => rfl
  · rcases hrf with h | h <;> subst h <;>
      cases rt with
      | found => exact absurd rfl hrt
      | noneResult => rfl
      | notFoundError => rfl
      | apiError => rfl

/-- The amended claim C3 holds at a concrete input: target retrieve and
fallback retrieve both raise not-found, creation raises a duplicate. -/
theorem c3_witness :
    (get_or_create_space "sdk_doc_integration_space" .notFoundError
      .duplicatedError).result = .ok demoSpaceId ∧
    (ensure_space_exists "sdk_doc_integration_space" .notFoundError
      .notFoundError .duplicatedError).result = none :=
  c3_duplicate_create_outcomes "sdk_doc_integration_space" .notFoundError
    .notFoundError (by decide) (Or.inr rfl)

/-- In a given run, the fallback container could be retrieved or created:
its retrieval found it, or its creation succeeded, or its creation failed as
a duplicate — which means the container existed on the service. -/
def fallbackObtainable (rf : RetrieveOutcome) (cf : CreateOutcome) : Prop :=
  rf = .found ∨ (∃ id, cf = .created id) ∨ cf = .duplicatedError

/-- As `fallbackObtainable`, for `get_or_create_space`, which never
retrieves the fallback: only the create call can obtain it. -/
def fallbackObtainableNoRetrieve (cf : CreateOutcome) : Prop :=
  (∃ id, cf = .created id) ∨ cf = .duplicatedError

/-- Claim C4 as stated: resolution fails exactly when the target retrieval
does not succeed and the fallback can be neither retrieved nor created. -/
def c4_as_stated : Prop :=
  (∀ (target : String) (rt : RetrieveOutcome) (cf : CreateOutcome),
    (get_or_create_space target rt cf).result.isFailure = true ↔
      (rt ≠ .found ∧ ¬ fallbackObtainableNoRetrieve cf)) ∧
  (∀ (target : String) (rt rf : RetrieveOutcome) (cf : CreateOutcome),
    (ensure_space_exists target rt rf cf).result = none ↔
      (rt ≠ .found ∧ ¬ fallbackObtainable rf cf))

/-- Claim C4 is false as stated: `ensure_space_exists` fails (returns
`None`) on a duplicate creation failure, a run in which the fallback
container exists on the service and so could have been retrieved or
created. -/
theorem c4_counterexample : ¬ c4_as_stated := by
  intro h
  have hc :=
    (h.2 "sdk_doc_integration_space" .notFoundError .notFoundError
      .duplicatedError).mp (by rfl)
  exact hc.2 (Or.inr (Or.inr rfl))

/-- Claim C4 amended: `get_or_create_space` fails exactly when the target
retrieval does not succeed and fallback creation fails for a non-duplicate
reason (API error or other exception); `ensure_space_exists` fails exactly
when the target retrieval does not succeed and either fallback retrieval
raises an API error or the fallback is not found and its creation does not
succeed (including a duplicate failure).  In every failing case the
constructors `fatalApiError` / `uncaughtError` / `none` carry no container
identifier. -/
theorem c4_failure_characterization :
    ∀ (target : String) (rt rf : RetrieveOutcome) (cf : CreateOutcome),
      ((get_or_create_space target rt cf).result.isFailure = true ↔
        (rt ≠ .found ∧ (cf = .apiError ∨ cf = .otherError))) ∧
      ((ensure_space_exists target rt rf cf).result = none ↔
        (rt ≠ .found ∧ (rf = .apiError ∨
          (rf ≠ .found ∧ ∀ id, cf ≠ .created id)))) := by
  intro target rt rf cf
  cases rt <;> cases rf <;> cases cf <;>
    simp [get_or_create_space, ensure_space_exists, ResolveResult.isFailure]

/-- Claim C5 as stated: an error other than not-found while retrieving the
desired container is treated exactly like not-found — resolution proceeds
to the fallback step and does not fail at that point.  For the GC script,
whose not-found signal is a falsy retrieve return, the analog is that an
API error behaves like a falsy return. -/
def c5_as_stated : Prop :=
  (∀ (target : String) (cf : CreateOutcome),
    get_or_create_space target .apiError cf =
      get_or_create_space target .notFoundError cf) ∧
  (∀ (target : String) (rf : RetrieveOutcome) (cf : CreateOutcome),
    ensure_space_exists target .apiError rf cf =
      ensure_space_exists target .notFoundError rf cf) ∧
  (∀ (target : String) (cf : CreateOutcome),
    gc_resolve_space target .apiError cf =
      gc_resolve_space target .noneResult cf)

/-- Claim C5 is false as stated: on a `CogniteAPIError` while retrieving the
desired container, the GC script prints the error and calls `sys.exit(1)`
instead of proceeding to the fallback step. -/
theorem c5_counterexample : ¬ c5_as_stated := by
  intro h
  have hc := h.2.2 "my_space" (.created demoSpaceId)
  exact absurd hc (by decide)

/-- Claim C5 amended: `get_or_create_space` and `ensure_space_exists` treat
an API error during target retrieval exactly like a not-found (identical
results and create calls for every continuation), while the GC script exits
with an error at that point and issues no create call. -/
theorem c5_api_error_fallback_behavior :
    ∀ (target : String) (cfJ : CreateOutcome) (rf : RetrieveOutcome)
      (cfE cfG : CreateOutcome),
      get_or_create_space target .apiError cfJ =
        get_or_create_space target .notFoundError cfJ ∧
      ensure_space_exists target .apiError rf cfE =
        ensure_space_exists target .notFoundError rf cfE ∧
      gc_resolve_space target .apiError cfG =
        { step := .exitError, createCalls := [] } := by
  intro target cfJ rf cfE cfG
  exact ⟨rfl, rfl, rfl⟩

/-- Outcome of the SDK upload call itself (`client.files.upload` /
`upload_bytes`) once it is reached: success, a raised `CogniteAPIError`, or
any other raised exception. -/
inductive UploadApiOutcome
  | success
  | apiError
  | otherError
deriving DecidableEq, Repr

/-- How an upload step ends.  `raised*`: the exception propagates out of the
step to the caller, which reports it and aborts the remaining pipeline
steps.  `swallowed*`: the step catches and prints the exception and returns
normally, so the caller continues.  `exit*`: the step prints the error and
calls `sys.exit(1)`. -/
inductive UploadStepResult
  | uploaded
  | raisedFileNotFound
  | raisedApiError
  | raisedOtherError
  | swallowedFileNotFound
  | swallowedApiError
  | swallowedOtherError
  | exitFileNotFound
  | exitApiError
  | exitOtherError
deriving DecidableEq, Repr

/-- Result of an upload step: how it ended, and whether the SDK upload
function (the step's network call) was invoked at all. -/
structure UploadStep where
  result : UploadStepResult
  uploadCalled : Bool
deriving DecidableEq, Repr

/-- `true` exactly on the endings that stop the rest of the run: a raised
exception (the caller reports it and performs no further pipeline step) or
a `sys.exit(1)`.  A swallowed error lets the run continue as if the step
had succeeded. -/
def UploadStepResult.isFatalToRun : UploadStepResult → Bool
  | .uploaded => false
  | .raisedFileNotFound => true
  | .raisedApiError => true
  | .raisedOtherError => true
  | .swallowedFileNotFound => false
  | .swallowedApiError => false
  | .swallowedOtherError => false
  | .exitFileNotFound => true
  | .exitApiError => true
  | .exitOtherError => true

/-- `upload_file_to_cdf_files_api` from `src/cdf_file_uploader_byJules_v1.py`
(lines 147-188): when `os.path.exists` is false it raises
`FileNotFoundError` before `client.files.upload` is called; otherwise it
calls `client.files.upload`, and catches nothing, so any exception from the
call propagates to `main`. -/
def upload_file_to_cdf_files_api (fileExists : Bool)
    (api : UploadApiOutcome) : UploadStep :=
  if fileExists then
    match api with
    | .success => { result := .uploaded, uploadCalled := true }
    | .apiError => { result := .raisedApiError, uploadCalled := true }
    | .otherError => { result := .raisedOtherError, uploadCalled := true }
  else
    { result := .raisedFileNotFound, uploadCalled := false }

/-- `upload_file_to_cdf` from `src/cdf_uploader.py` (lines 173-218): it has
no existence pre-check and always invokes `client.files.upload`; a
`FileNotFoundError` surfacing from the call (the SDK opening the missing
path), a `CogniteAPIError`, and any other exception are each caught and
printed, after which the function returns normally. -/
def upload_file_to_cdf (fileExists : Bool) (api : UploadApiOutcome) :
    UploadStep :=
  if fileExists then
    match api with
    | .success => { result := .uploaded, uploadCalled := true }
    | .apiError => { result := .swallowedApiError, uploadCalled := true }
    | .otherError => { result := .swallowedOtherError, uploadCalled := true }
  else
    { result := .swallowedFileNotFound, uploadCalled := true }

/-- The file-read and upload block of `main` in
`src/upload_to_cdf_byGC_v1.py` (lines 79-116): `open` on a missing path
raises `FileNotFoundError`, caught with a print and `sys.exit(1)` before
`client.files.upload_bytes` is reached; once the bytes are read, a
`CogniteAPIError` or any other exception from the upload call is caught
with a print and `sys.exit(1)`. -/
def gc_upload_step (fileExists : Bool) (api : UploadApiOutcome) :
    UploadStep :=
  if fileExists then
    match api with
    | .success => { result := .uploaded, uploadCalled := true }
    | .apiError => { result := .exitApiError, uploadCalled := true }
    | .otherError => { result := .exitOtherError, uploadCalled := true }
  else
    { result := .exitFileNotFound, uploadCalled := false }

/-- Claim C6 as stated: in every script, a missing local file makes the
upload step fail fatally without invoking the SDK upload call. -/
def c6_as_stated : Prop :=
  ∀ api : UploadApiOutcome,
    ((upload_file_to_cdf_files_api false api).uploadCalled = false ∧
      (upload_file_to_cdf_files_api false api).result.isFatalToRun = true) ∧
    ((upload_file_to_cdf false api).uploadCalled = false ∧
      (upload_file_to_cdf false api).result.isFatalToRun = true) ∧
    ((gc_upload_step false api).uploadCalled = false ∧
      (gc_upload_step false api).result.isFatalToRun = true)

/-- Claim C6 is false as stated: in `upload_file_to_cdf` the SDK upload
call is invoked with the missing path and the resulting `FileNotFoundError`
is caught and printed inside the step, which returns normally — not fatal,
and not raised before the call. -/
theorem c6_counterexample : ¬ c6_as_stated := by
  intro h
  exact absurd (h .success).2.1.1 (by decide)

/-- Claim C6 amended: the Jules script raises `FileNotFoundError` before
its upload call and the error aborts the rest of the run; the GC script
prints and exits before its upload call; but `upload_file_to_cdf` in
`src/cdf_uploader.py` invokes the upload call on the missing path, catches
the resulting `FileNotFoundError`, prints it, and returns normally, so its
caller continues. -/
theorem c6_missing_file_outcomes :
    ∀ api : UploadApiOutcome,
      upload_file_to_cdf_files_api false api =
        { result := .raisedFileNotFound, uploadCalled := false } ∧
      (UploadStepResult.raisedFileNotFound).isFatalToRun = true ∧
      gc_upload_step false api =
        { result := .exitFileNotFound, uploadCalled := false } ∧
      (UploadStepResult.exitFileNotFound).isFatalToRun = true ∧
      upload_file_to_cdf false api =
        { result := .swallowedFileNotFound, uploadCalled := true } ∧
      (UploadStepResult.swallowedFileNotFound).isFatalToRun = false := by
  intro api
  exact ⟨rfl, rfl, rfl, rfl, rfl, rfl⟩

/-- The five environment variables the scripts read; `none` models an unset
variable, `some v` a variable set to the string `v`. -/
structure EnvConfig where
  cogniteProject : Option String
  cogniteClientId : Option String
  cogniteClientSecret : Option String
  cogniteTenantId : Option String
  cogniteBaseUrl : Option String
deriving DecidableEq, Repr

/-- The `missing_vars` list built by `initialize_cognite_client` and
`get_cdf_client`: the names of the unset variables, in the dictionary's
insertion order (both scripts use the same order). -/
def missing_env_vars (env : EnvConfig) : List String :=
  (if env.cogniteProject = none then ["COGNITE_PROJECT"] else []) ++
  (if env.cogniteClientId = none then ["COGNITE_CLIENT_ID"] else []) ++
  (if env.cogniteClientSecret = none then ["COGNITE_CLIENT_SECRET"] else []) ++
  (if env.cogniteTenantId = none then ["COGNITE_TENANT_ID"] else []) ++
  (if env.cogniteBaseUrl = none then ["COGNITE_BASE_URL"] else [])

/-- The client configuration assembled once all variables are present; no
network call is made while building it. -/
structure ClientModel where
  clientName : String
  project : String
  baseUrl : String
  tokenUrl : String
  scopes : List String
deriving DecidableEq, Repr

/-- Result of client initialization: a configured client, or the
`ValueError` the function raises when variables are missing. -/
inductive ClientInit
  | ok (c : ClientModel)
  | valueError (msg : String)
deriving DecidableEq, Repr

/-- `initialize_cognite_client` from `src/cdf_file_uploader_byJules_v1.py`
(lines 66-103): raises `ValueError` naming the missing variables when any
of the five is unset (nothing network-facing is built in that case), else
assembles the OAuth credentials and client config. -/
def init_cognite_client (env : EnvConfig) : ClientInit :=
  match env.cogniteProject, env.cogniteClientId, env.cogniteClientSecret,
      env.cogniteTenantId, env.cogniteBaseUrl with
  | some project, some _, some _, some tenantId, some baseUrl =>
    ClientInit.ok
      { clientName := "JulesFileUploaderScript"
        project := project
        baseUrl := baseUrl
        tokenUrl := "https://login.microsoftonline.com/" ++ tenantId ++
          "/oauth2/v2.0/token"
        scopes := ["https://" ++ baseUrl ++ "/.default"] }
  | _, _, _, _, _ =>
    ClientInit.valueError ("Missing required environment variables: " ++
      String.intercalate ", " (missing_env_vars env))

/-- `get_cdf_client` from `src/cdf_uploader.py` (lines 36-82): the same
missing-variable check and `ValueError`, then a client with a different
name and scope shape (no extra `https://` prefix on the scope). -/
def get_cdf_client (env : EnvConfig) : ClientInit :=
  match env.cogniteProject, env.cogniteClientId, env.cogniteClientSecret,
      env.cogniteTenantId, env.cogniteBaseUrl with
  | some project, some _, some _, some tenantId, some baseUrl =>
    ClientInit.ok
      { clientName := "CDFFileUploaderScript"
        project := project
        baseUrl := baseUrl
        tokenUrl := "https://login.microsoftonline.com/" ++ tenantId ++
          "/oauth2/v2.0/token"
        scopes := [baseUrl ++ "/.default"] }
  | _, _, _, _, _ =>
    ClientInit.valueError ("Missing required environment variables: " ++
      String.intercalate ", " (missing_env_vars env))

/-- Result of one `get_env_var` call in `src/upload_to_cdf_byGC_v1.py`:
the value, or the print-and-`sys.exit(1)` naming the offending variable. -/
inductive GcEnvRead
  | ok (value : String)
  | exitMissing (name : String)
deriving DecidableEq, Repr

/-- `get_env_var(name)` from `src/upload_to_cdf_byGC_v1.py` (lines 35-40):
`if not value` treats both an unset variable and an empty string as
missing, printing the name and exiting. -/
def gc_get_env_var (name : String) (value : Option String) : GcEnvRead :=
  match value with
  | none => .exitMissing name
  | some v => if v = "" then .exitMissing name else .ok v

/-- The connection parameters the GC script reads before building a
client. -/
structure GcConfig where
  project : String
  clientId : String
  clientSecret : String
  tenantId : String
  baseUrl : String
deriving DecidableEq, Repr

/-- Result of the configuration block of `main` in
`src/upload_to_cdf_byGC_v1.py`: all five values, or the exit at the first
missing variable. -/
inductive GcConfigRead
  | ok (c : GcConfig)
  | exitMissing (name : String)
deriving DecidableEq, Repr

/-- The configuration block of `main` in `src/upload_to_cdf_byGC_v1.py`
(lines 44-48): five `get_env_var` calls in order, each exiting the process
at the first missing variable, before the client is constructed. -/
def gc_read_config (env : EnvConfig) : GcConfigRead :=
  match gc_get_env_var "COGNITE_PROJECT" env.cogniteProject with
  | .exitMissing n => .exitMissing n
  | .ok project =>
    match gc_get_env_var "COGNITE_CLIENT_ID" env.cogniteClientId with
    | .exitMissing n => .exitMissing n
    | .ok clientId =>
      match gc_get_env_var "COGNITE_CLIENT_SECRET" env.cogniteClientSecret with
      | .exitMissing n => .exitMissing n
      | .ok clientSecret =>
        match gc_get_env_var "COGNITE_TENANT_ID" env.cogniteTenantId with
        | .exitMissing n => .exitMissing n
        | .ok tenantId =>
          match gc_get_env_var "COGNITE_BASE_URL" env.cogniteBaseUrl with
          | .exitMissing n => .exitMissing n
          | .ok baseUrl =>
            .ok { project := project, clientId := clientId,
                  clientSecret := clientSecret, tenantId := tenantId,
                  baseUrl := baseUrl }

/-- Claim C7: if any of the five required environment variables is unset,
all three scripts fail fast — the two library-style initializers raise a
`ValueError` (producing no client, hence no network call) and the GC
configuration block exits before constructing a client. -/
theorem c7_missing_env_fail_fast :
    ∀ env : EnvConfig,
      (env.cogniteProject = none ∨ env.cogniteClientId = none ∨
        env.cogniteClientSecret = none ∨ env.cogniteTenantId = none ∨
        env.cogniteBaseUrl = none) →
      (∃ msg, init_cognite_client env = .valueError msg) ∧
      (∃ msg, get_cdf_client env = .valueError msg) ∧
      (∃ name, gc_read_config env = .exitMissing name) := by
  intro env h
  obtain ⟨p, ci, cs, ti, bu⟩ := env
  refine ⟨?_, ?_, ?_⟩ <;>
    cases p <;> cases ci <;> cases cs <;> cases ti <;> cases bu <;>
      first
        | exact ⟨_, rfl⟩
        | (simp only [gc_read_config, gc_get_env_var]
           repeat' split
           all_goals exact ⟨_, rfl⟩)
        | simp_all

/-- Claim C7 holds at a concrete input: an environment with
COGNITE_PROJECT unset and the other four variables set. -/
theorem c7_witness :
    (∃ msg, init_cognite_client
      { cogniteProject := none, cogniteClientId := some "id",
        cogniteClientSecret := some "secret", cogniteTenantId := some "tenant",
        cogniteBaseUrl := some "https://api.cognitedata.com" } =
        .valueError msg) ∧
    (∃ msg, get_cdf_client
      { cogniteProject := none, cogniteClientId := some "id",
        cogniteClientSecret := some "secret", cogniteTenantId := some "tenant",
        cogniteBaseUrl := some "https://api.cognitedata.com" } =
        .valueError msg) ∧
    (∃ name, gc_read_config
      { cogniteProject := none, cogniteClientId := some "id",
        cogniteClientSecret := some "secret", cogniteTenantId := some "tenant",
        cogniteBaseUrl := some "https://api.cognitedata.com" } =
        .exitMissing name) :=
  c7_missing_env_fail_fast
    { cogniteProject := none, cogniteClientId := some "id",
      cogniteClientSecret := some "secret", cogniteTenantId := some "tenant",
      cogniteBaseUrl := some "https://api.cognitedata.com" }
    (Or.inl rfl)

/-- Claim C8: every resolution run issues at most one create call, any
create call carries exactly the fallback id `demo_space`, and (the create
calls being the only mutating calls issued) a desired id distinct from the
fallback id is never the subject of a create call — in all three scripts. -/
theorem c8_create_calls_frame :
    ∀ (target : String) (rt rf : RetrieveOutcome) (cfJ cfE cfG : CreateOutcome),
      target ≠ demoSpaceId →
      ((get_or_create_space target rt cfJ).createCalls = [] ∨
        (get_or_create_space target rt cfJ).createCalls = [demoSpaceId]) ∧
      target ∉ (get_or_create_space target rt cfJ).createCalls ∧
      ((ensure_space_exists target rt rf cfE).createCalls = [] ∨
        (ensure_space_exists target rt rf cfE).createCalls = [demoSpaceId]) ∧
      target ∉ (ensure_space_exists target rt rf cfE).createCalls ∧
      ((gc_resolve_space target rt cfG).createCalls = [] ∨
        (gc_resolve_space target rt cfG).createCalls = [demoSpaceId]) ∧
      target ∉ (gc_resolve_space target rt cfG).createCalls := by
  intro target rt rf cfJ cfE cfG htarget
  cases rt <;> cases rf <;> cases cfJ <;> cases cfE <;> cases cfG <;>
    simp_all [get_or_create_space, ensure_space_exists, gc_resolve_space]

/-- Claim C8 holds at a concrete input: target `my_data_model_space`, every
retrieve raising not-found, every create succeeding. -/
theorem c8_witness :
    ((get_or_create_space "my_data_model_space" .notFoundError
        (.created demoSpaceId)).createCalls = [] ∨
      (get_or_create_space "my_data_model_space" .notFoundError
        (.created demoSpaceId)).createCalls = [demoSpaceId]) ∧
    "my_data_model_space" ∉ (get_or_create_space "my_data_model_space"
      .notFoundError (.created demoSpaceId)).createCalls ∧
    ((ensure_space_exists "my_data_model_space" .notFoundError .notFoundError
        (.created demoSpaceId)).createCalls = [] ∨
      (ensure_space_exists "my_data_model_space" .notFoundError .notFoundError
        (.created demoSpaceId)).createCalls = [demoSpaceId]) ∧
    "my_data_model_space" ∉ (ensure_space_exists "my_data_model_space"
      .notFoundError .notFoundError (.created demoSpaceId)).createCalls ∧
    ((gc_resolve_space "my_data_model_space" .notFoundError
        (.created demoSpaceId)).createCalls = [] ∨
      (gc_resolve_space "my_data_model_space" .notFoundError
        (.created demoSpaceId)).createCalls = [demoSpaceId]) ∧
    "my_data_model_space" ∉ (gc_resolve_space "my_data_model_space"
      .notFoundError (.created demoSpaceId)).createCalls :=
  c8_create_calls_frame "my_data_model_space" .notFoundError .notFoundError
    (.created demoSpaceId) (.created demoSpaceId) (.created demoSpaceId)
    (by decide)

/-- Observable steps of a run of `main` in
`src/cdf_file_uploader_byJules_v1.py`, in execution order. -/
inductive PipelineEvent
  | resolveOk (space : String)
  | resolveFailed
  | uploadOk (fileExternalId : String)
  | uploadFailed
  | nodeCreated (space : String) (nodeExternalId : String)
deriving DecidableEq, Repr

/-- The step sequence of `main` in `src/cdf_file_uploader_byJules_v1.py`
(lines 306-388): step 2 resolves the space (an exception ends the run in a
handler, skipping all later steps); step 3 uploads (same); step 4 builds a
`NodeApply` whose `space` field is exactly the id step 2 returned and whose
external id is the configured file external id (`create_cognite_file_node`,
lines 238-246), and applies it. -/
def jules_main_events (target : String) (rt : RetrieveOutcome)
    (cf : CreateOutcome) (fileExists : Bool) (api : UploadApiOutcome)
    (fileXid : String) : List PipelineEvent :=
  match (get_or_create_space target rt cf).result with
  | .fatalApiError => [.resolveFailed]
  | .uncaughtError => [.resolveFailed]
  | .ok sp =>
    if (upload_file_to_cdf_files_api fileExists api).result = .uploaded then
      [.resolveOk sp, .uploadOk fileXid, .nodeCreated sp fileXid]
    else
      [.resolveOk sp, .uploadFailed]

/-- `jules_main_events` run against the deterministic service state,
together with the service state after resolution. -/
def jules_main_events_st (target : String) (spaces : List String)
    (fileExists : Bool) (api : UploadApiOutcome) (fileXid : String) :
    List PipelineEvent × List String :=
  let r := get_or_create_space_st target spaces
  match r.1.result with
  | .fatalApiError => ([.resolveFailed], r.2)
  | .uncaughtError => ([.resolveFailed], r.2)
  | .ok sp =>
    if (upload_file_to_cdf_files_api fileExists api).result = .uploaded then
      ([.resolveOk sp, .uploadOk fileXid, .nodeCreated sp fileXid], r.2)
    else
      ([.resolveOk sp, .uploadFailed], r.2)

/-- Claim C9: whenever the run creates a CogniteFile node, the run is
exactly resolve-then-upload-then-create with the successful resolution
event strictly before the node creation, the node's space is exactly the id
resolution returned, and — against the deterministic service — that id is
in the set of existing spaces after resolution, so the node never
references a container absent at creation time. -/
theorem c9_node_after_resolution :
    ∀ (target : String) (rt : RetrieveOutcome) (cf : CreateOutcome)
      (fileExists : Bool) (api : UploadApiOutcome) (fileXid : String)
      (spaces : List String) (sp xid : String),
      (PipelineEvent.nodeCreated sp xid ∈
          jules_main_events target rt cf fileExists api fileXid →
        jules_main_events target rt cf fileExists api fileXid =
          [.resolveOk sp, .uploadOk xid, .nodeCreated sp xid] ∧
        (get_or_create_space target rt cf).result = .ok sp) ∧
      (PipelineEvent.nodeCreated sp xid ∈
          (jules_main_events_st target spaces fileExists api fileXid).1 →
        sp ∈ (jules_main_events_st target spaces fileExists api fileXid).2) := by
  intro target rt cf fileExists api fileXid spaces sp xid
  constructor
  · intro hmem
    unfold jules_main_events at hmem ⊢
    rcases hres : (get_or_create_space target rt cf).result with sp0 | _ | _ <;>
      simp only [hres] at hmem ⊢
    · by_cases hup :
        (upload_file_to_cdf_files_api fileExists api).result = .uploaded
      · simp only [hup, if_pos] at hmem ⊢
        simp only [List.mem_cons, List.not_mem_nil, or_false] at hmem
        rcases hmem with h | h | h
        · exact absurd h (by simp)
        · exact absurd h (by simp)
        · obtain ⟨hsp, hxid⟩ := PipelineEvent.nodeCreated.inj h
          subst hsp; subst hxid
          exact ⟨rfl, rfl⟩
      · simp [hup] at hmem
    · simp at hmem
    · simp at hmem
  · intro hmem
    by_cases htarget : target ∈ spaces <;>
      by_cases hdemo : demoSpaceId ∈ spaces <;>
      by_cases hup :
        (upload_file_to_cdf_files_api fileExists api).result = .uploaded <;>
      simp_all [jules_main_events_st, get_or_create_space_st,
        retrieveFromState, createInState, get_or_create_space]

/-- Claim C9 holds at a concrete input: a run that resolves to `demo_space`
by creating it, uploads successfully, and creates the node. -/
theorem c9_witness :
    (jules_main_events "my_data_model_space" .notFoundError
        (.created demoSpaceId) true .success "unique_file_external_id_001" =
      [.resolveOk demoSpaceId, .uploadOk "unique_file_external_id_001",
        .nodeCreated demoSpaceId "unique_file_external_id_001"] ∧
      (get_or_create_space "my_data_model_space" .notFoundError
        (.created demoSpaceId)).result = .ok demoSpaceId) ∧
    demoSpaceId ∈ (jules_main_events_st "my_data_model_space" [] true .success
      "unique_file_external_id_001").2 :=
  ⟨(c9_node_after_resolution "my_data_model_space" .notFoundError
      (.created demoSpaceId) true .success "unique_file_external_id_001" []
      demoSpaceId "unique_file_external_id_001").1 (by decide),
   (c9_node_after_resolution "my_data_model_space" .notFoundError
      (.created demoSpaceId) true .success "unique_file_external_id_001" []
      demoSpaceId "unique_file_external_id_001").2 (by decide)⟩

/-- Characters of the component after the last separator: scanning left to
right, accumulate characters and restart at each `/`. -/
def basenameChars : List Char → List Char → List Char
  | [], acc => acc.reverse
  | c :: rest, acc =>
    if c = '/' then basenameChars rest [] else basenameChars rest (c :: acc)

/-- `os.path.basename` on a POSIX path: the component after the last
separator. -/
def basename (path : String) : String :=
  ⟨basenameChars path.data []⟩

/-- Python string falsiness as the scripts use it: both `None` and the
empty string count as not supplied (`file_name or ...`, `if not
effective_mime_type`). -/
def strFalsy : Option String → Bool
  | none => true
  | some s => s = ""

/-- `effective_file_name = file_name or os.path.basename(local_file_path)`
from `upload_file_to_cdf_files_api` in
`src/cdf_file_uploader_byJules_v1.py` (line 164). -/
def effective_file_name (fileName : Option String) (localPath : String) :
    String :=
  match fileName with
  | some s => if s = "" then basename localPath else s
  | none => basename localPath

/-- The MIME-type selection of `upload_file_to_cdf_files_api` in
`src/cdf_file_uploader_byJules_v1.py` (lines 166-170): keep a truthy
supplied type; otherwise take `mimetypes.guess_type` (modelled by the
`guessed` argument, `none` when nothing can be guessed); otherwise
`application/octet-stream`. -/
def effective_mime_type (mimeType guessed : Option String) : String :=
  if strFalsy mimeType then
    match guessed with
    | some g => if g = "" then "application/octet-stream" else g
    | none => "application/octet-stream"
  else
    match mimeType with
    | some m => m
    | none => "application/octet-stream"

/-- The MIME-type selection of `main` in `src/upload_to_cdf_byGC_v1.py`
(lines 91-94): `guess_type`, defaulting to `application/octet-stream` when
falsy.  The GC script takes no display-name parameter at all. -/
def gc_mime_type (guessed : Option String) : String :=
  match guessed with
  | some g => if g = "" then "application/octet-stream" else g
  | none => "application/octet-stream"

/-- The file name of `main` in `src/upload_to_cdf_byGC_v1.py` (line 100):
always the basename of the local path. -/
def gc_file_name (localPath : String) : String :=
  basename localPath

/-- Claim C10: with no MIME type supplied and none guessable from the path,
both upload steps use `application/octet-stream`; with no display name
supplied, both use the basename of the local path as the file name. -/
theorem c10_mime_and_name_defaults :
    ∀ (mimeType fileName : Option String) (localPath : String),
      strFalsy mimeType = true → strFalsy fileName = true →
      effective_mime_type mimeType none = "application/octet-stream" ∧
      gc_mime_type none = "application/octet-stream" ∧
      effective_file_name fileName localPath = basename localPath ∧
      gc_file_name localPath = basename localPath := by
  intro mimeType fileName localPath hmime hname
  refine ⟨?_, rfl, ?_, rfl⟩
  · simp [effective_mime_type, hmime]
  · cases fileName with
    | none => rfl
    | some s =>
      simp only [strFalsy, decide_eq_true_eq] at hname
      simp [effective_file_name, hname]

/-- Claim C10 holds at a concrete input: empty MIME type and empty display
name for the local path `path/to/your/local/file.txt`; the chosen file name
evaluates to the basename `file.txt`. -/
theorem c10_witness :
    (effective_mime_type (some "") none = "application/octet-stream" ∧
      gc_mime_type none = "application/octet-stream" ∧
      effective_file_name (some "") "path/to/your/local/file.txt" =
        basename "path/to/your/local/file.txt" ∧
      gc_file_name "path/to/your/local/file.txt" =
        basename "path/to/your/local/file.txt") ∧
    basename "path/to/your/local/file.txt" = "file.txt" :=
  ⟨c10_mime_and_name_defaults (some "") (some "") "path/to/your/local/file.txt"
      (by decide) (by decide),
   by decide⟩

end CdfUpload
